import Mathlib

/-!
Shallow embedding of the core of `tempest-exporter` (weather-station
telemetry decoder): `src/decoder.rs` and `src/perishable.rs`.

Modelling conventions:
* `f64` values are modelled as real numbers (`ℝ`); NaN/infinity behaviour is
  outside the model.
* Rust's `x as i64` cast on an `f64` truncates toward zero and saturates at
  the `i64` bounds; `f64toI64` mirrors that on `ℝ`.
* `chrono::DateTime<Utc>` built by `DateTime::from_utc(NaiveDateTime::
  from_timestamp(s, 0), Utc)` is modelled as the Unix second count `s : ℤ`.
* `chrono::Duration` is modelled as a count of seconds (`ℤ`).
* `std::time::Instant` in `perishable.rs` is modelled as an integer clock
  value; the implicit `Instant::now()` calls become an explicit `now`
  argument, and the `AtomicCell` mutation becomes explicit state passing.
* `anyhow::Error` is modelled as the message `String`.
* `raw.obs` in `decoder.rs` is indexed as `obs[0][i]` with 18 optional
  numeric slots; the decoder (`TryFrom<RawObservation>`) pattern-matches
  each slot against `Some`/`None`, so the single row is modelled as
  `Fin 18 → Option ℝ`.
-/

namespace Tempest

/-- Rust `x as i64` on an `f64`: truncation toward zero, saturating at the
`i64` range. -/
noncomputable def f64toI64 (x : ℝ) : ℤ :=
  max (-(2 ^ 63)) (min (2 ^ 63 - 1) (if 0 ≤ x then ⌊x⌋ else ⌈x⌉))

/-- `chrono::Duration`, as a number of seconds. -/
abbrev Duration := ℤ

/-- `Duration::seconds`. -/
def Duration.seconds (n : ℤ) : Duration := n

/-- `Duration::minutes`. -/
def Duration.minutes (n : ℤ) : Duration := 60 * n

/-- `chrono::DateTime<Utc>`, as a Unix second count. -/
abbrev DateTime := ℤ

/-- `DateTime::from_utc(NaiveDateTime::from_timestamp(sec, 0), Utc)`. -/
def DateTime.fromUnix (sec : ℤ) : DateTime := sec

/-- `decoder::Wind`. -/
structure Wind where
  speed_magnitude : ℝ
  source_direction : ℝ

/-- `Wind::new`. -/
def Wind.new (speed : ℝ) (dir : ℝ) : Wind :=
  { speed_magnitude := speed, source_direction := dir }

/-- `decoder::PrecipKind`. -/
inductive PrecipKind where
  | none
  | rain
  | hail
  | rainHail
deriving DecidableEq

/-- `decoder::WindObservation`. -/
structure WindObservation where
  lull : Wind
  avg : Wind
  gust : Wind
  interval : Duration

/-- `decoder::SolarObservation`. -/
structure SolarObservation where
  illuminance : ℝ
  ultraviolet_index : ℝ
  irradiance : ℝ

/-- `decoder::PrecipObservation`. -/
structure PrecipObservation where
  quantity_last_minute : ℝ
  kind : PrecipKind

/-- `decoder::LightningObservation`. -/
structure LightningObservation where
  average_distance : ℝ
  count : ℤ

/-- `decoder::Observation`. -/
structure Observation where
  timestamp : DateTime
  wind : Option WindObservation
  station_pressure : Option ℝ
  air_temperature : Option ℝ
  relative_humidity : Option ℝ
  solar : Option SolarObservation
  precip : Option PrecipObservation
  lightning : Option LightningObservation
  battery_volts : ℝ
  report_interval : Duration

/-- `const LAMBDA: f64 = -0.0065` (temperature lapse rate, K/m). -/
noncomputable def LAMBDA : ℝ := -0.0065

/-- `const R_SUB_D: f64 = 287.0` (specific gas constant of dry air). -/
noncomputable def R_SUB_D : ℝ := 287.0

/-- `const G: f64 = 9.80665` (gravitational constant). -/
noncomputable def G : ℝ := 9.80665

/-- `const G_OVER_RD_LAMBDA: f64 = -G / (R_SUB_D * LAMBDA)`. -/
noncomputable def G_OVER_RD_LAMBDA : ℝ := -G / (R_SUB_D * LAMBDA)

/-- `const ZERO_C_KELVIN: f64 = 273.15`. -/
noncomputable def ZERO_C_KELVIN : ℝ := 273.15

/-- `const ARDEN_BUCK_A: f64 = 6.1121`. -/
noncomputable def ARDEN_BUCK_A : ℝ := 6.1121

/-- `const ARDEN_BUCK_B: f64 = 18.678`. -/
noncomputable def ARDEN_BUCK_B : ℝ := 18.678

/-- `const ARDEN_BUCK_C: f64 = 257.14`. -/
noncomputable def ARDEN_BUCK_C : ℝ := 257.14

/-- `const ARDEN_BUCK_D: f64 = 234.5`. -/
noncomputable def ARDEN_BUCK_D : ℝ := 234.5

/-- `const STULL_A: f64 = 0.151977`. -/
noncomputable def STULL_A : ℝ := 0.151977

/-- `const STULL_B: f64 = 8.313659`. -/
noncomputable def STULL_B : ℝ := 8.313659

/-- `const STULL_C: f64 = -1.676311`. -/
noncomputable def STULL_C : ℝ := -1.676311

/-- `const STULL_D: f64 = 0.00391838`. -/
noncomputable def STULL_D : ℝ := 0.00391838

/-- `const STULL_E: f64 = 0.023101`. -/
noncomputable def STULL_E : ℝ := 0.023101

/-- `const STULL_F: f64 = -4.686035`. -/
noncomputable def STULL_F : ℝ := -4.686035

/-- `const STEADMAN_CE: f64 = 0.348`. -/
noncomputable def STEADMAN_CE : ℝ := 0.348

/-- `const STEADMAN_CWS: f64 = -0.70`. -/
noncomputable def STEADMAN_CWS : ℝ := -0.70

/-- `const STEADMAN_CQ: f64 = 0.70`. -/
noncomputable def STEADMAN_CQ : ℝ := 0.70

/-- `const STEADMAN_OWS: f64 = 10.0`. -/
noncomputable def STEADMAN_OWS : ℝ := 10.0

/-- `const STEADMAN_B: f64 = -4.25`. -/
noncomputable def STEADMAN_B : ℝ := -4.25

/-- `Observation::barometric_pressure(station_elevation)`: `powf` becomes
`Real.rpow`. -/
noncomputable def Observation.barometric_pressure (o : Observation)
    (station_elevation : ℝ) : Option ℝ := do
  let t ← o.air_temperature
  let t_kelvin := t + ZERO_C_KELVIN
  let ratio := (1 + (LAMBDA * station_elevation) /
      (t_kelvin - LAMBDA * station_elevation)) ^ (-G_OVER_RD_LAMBDA)
  let p ← o.station_pressure
  pure (p * ratio)

/-- `Observation::vapor_pressure_saturated`. -/
noncomputable def Observation.vapor_pressure_saturated (o : Observation) :
    Option ℝ := do
  let t ← o.air_temperature
  pure (ARDEN_BUCK_A *
    Real.exp ((ARDEN_BUCK_B - t / ARDEN_BUCK_D) * (t / (ARDEN_BUCK_C + t))))

/-- `Observation::vapor_pressure_actual`. -/
noncomputable def Observation.vapor_pressure_actual (o : Observation) :
    Option ℝ := do
  let ps ← o.vapor_pressure_saturated
  let rh ← o.relative_humidity
  pure (ps * (rh / 100))

/-- `Observation::dew_point`. -/
noncomputable def Observation.dew_point (o : Observation) : Option ℝ := do
  let pa ← o.vapor_pressure_actual
  let ln_pa_t_over_a := Real.log (pa / ARDEN_BUCK_A)
  pure (ARDEN_BUCK_C * ln_pa_t_over_a / (ARDEN_BUCK_B - ln_pa_t_over_a))

/-- `Observation::wet_bulb_temperature`. -/
noncomputable def Observation.wet_bulb_temperature (o : Observation) :
    Option ℝ := do
  let t ← o.air_temperature
  let rh ← o.relative_humidity
  pure (t * Real.arctan (STULL_A * Real.sqrt (rh + STULL_B)) +
    Real.arctan (t + rh) - Real.arctan (rh + STULL_C) +
    STULL_D * rh ^ ((3 : ℝ) / 2) * Real.arctan (STULL_E * rh) + STULL_F)

/-- `Observation::apparent_temperature`. -/
noncomputable def Observation.apparent_temperature (o : Observation) :
    Option ℝ := do
  let ta ← o.air_temperature
  let e ← o.vapor_pressure_actual
  let w ← o.wind
  let ws := w.avg.speed_magnitude
  let s ← o.solar
  let q := s.irradiance
  pure (ta + STEADMAN_CE * e + STEADMAN_CWS * ws +
    (STEADMAN_CQ * q) / (ws + STEADMAN_OWS) + STEADMAN_B)

/-- `reader::RawObservation`: the decoder reads the single row `obs[0]` and
matches each of its 18 slots against `Some`/`None`, so the payload is
modelled as `Fin 18 → Option ℝ`. -/
structure RawObservation where
  serial_number : String
  hub_sn : String
  obs : Fin 18 → Option ℝ
  firmware_revision : ℤ

/-- The `wind` closure in `try_from`: all-or-nothing over slots 4, 1, 2, 3
and 5 of the raw observation row. -/
noncomputable def windFromSlots (obs : Fin 18 → Option ℝ) :
    Option WindObservation := do
  let wind_dir ← obs 4
  let lull ← obs 1
  let avg ← obs 2
  let gust ← obs 3
  let itv ← obs 5
  pure { lull := Wind.new lull wind_dir, avg := Wind.new avg wind_dir,
         gust := Wind.new gust wind_dir,
         interval := Duration.seconds (f64toI64 itv) }

/-- The `solar` closure in `try_from`: slots 9, 10, 11. -/
def solarFromSlots (obs : Fin 18 → Option ℝ) : Option SolarObservation := do
  let il ← obs 9
  let uv ← obs 10
  let ir ← obs 11
  pure { illuminance := il, ultraviolet_index := uv, irradiance := ir }

/-- The `precip_obs` closure in `try_from`: slots 12 and 13, the latter cast
with `as i64`. -/
noncomputable def precipObsFromSlots (obs : Fin 18 → Option ℝ) :
    Option (ℝ × ℤ) := do
  let qty ← obs 12
  let kind ← obs 13
  pure (qty, f64toI64 kind)

/-- The `lightning` closure in `try_from`: slots 14 and 15, the latter cast
with `as i64`. -/
noncomputable def lightningFromSlots (obs : Fin 18 → Option ℝ) :
    Option LightningObservation := do
  let dist ← obs 14
  let cnt ← obs 15
  pure { average_distance := dist, count := f64toI64 cnt }

/-- `TryFrom<reader::RawObservation> for Observation`: a faithful
transcription of the early-return structure of `try_from`, with
`Err((raw, e))` as `Except.error (raw, e)`. -/
noncomputable def Observation.tryFromRaw (raw : RawObservation) :
    Except (RawObservation × String) Observation :=
  match raw.obs 0 with
  | Option.none => Except.error (raw, "Missing observation timestamp")
  | Option.some unix_sec =>
    let timestamp := DateTime.fromUnix (f64toI64 unix_sec)
    let precipResult : Except (RawObservation × String)
        (Option PrecipObservation) :=
      match precipObsFromSlots raw.obs with
      | Option.some (qty, kind_raw) =>
        if kind_raw = 0 then
          Except.ok (Option.some
            { quantity_last_minute := qty, kind := PrecipKind.none })
        else if kind_raw = 1 then
          Except.ok (Option.some
            { quantity_last_minute := qty, kind := PrecipKind.rain })
        else if kind_raw = 2 then
          Except.ok (Option.some
            { quantity_last_minute := qty, kind := PrecipKind.hail })
        else if kind_raw = 3 then
          Except.ok (Option.some
            { quantity_last_minute := qty, kind := PrecipKind.rainHail })
        else Except.error (raw, "Unrecognized precip type")
      | Option.none => Except.ok Option.none
    match precipResult with
    | Except.error e => Except.error e
    | Except.ok precip =>
      match raw.obs 16 with
      | Option.none => Except.error (raw, "Missing battery voltage")
      | Option.some volts =>
        match raw.obs 17 with
        | Option.none => Except.error (raw, "Missing report interval")
        | Option.some itv =>
          Except.ok
            { timestamp := timestamp, wind := windFromSlots raw.obs,
              station_pressure := raw.obs 6,
              air_temperature := raw.obs 7,
              relative_humidity := raw.obs 8,
              solar := solarFromSlots raw.obs, precip := precip,
              lightning := lightningFromSlots raw.obs,
              battery_volts := volts,
              report_interval := Duration.minutes (f64toI64 itv) }

/-- `decoder::ResetFlags` (all flags default to `false`). -/
structure ResetFlags where
  brownout : Bool := false
  pin : Bool := false
  power_on : Bool := false
  software : Bool := false
  watchdog : Bool := false
  window_watchdog : Bool := false
  low_power : Bool := false
  hard_fault : Bool := false
deriving DecidableEq

/-- Rust `s.split(',')` on the character list: splitting an empty string
yields one empty token, and each comma starts a new token. -/
def splitOnComma (cs : List Char) : List (List Char) :=
  match cs with
  | [] => [[]]
  | c :: rest =>
    if c = ',' then [] :: splitOnComma rest
    else
      match splitOnComma rest with
      | [] => [[c]]
      | t :: ts => (c :: t) :: ts

/-- Rust `s.split(',')` as a list of strings. -/
def splitCommas (s : String) : List String :=
  (splitOnComma s.data).map (fun cs => String.mk cs)

/-- One iteration of the `for label in s.split(',')` loop in
`FromStr for ResetFlags`. -/
def ResetFlags.applyLabel (r : ResetFlags) (label : String) :
    Except String ResetFlags :=
  if label = "BOR" then Except.ok { r with brownout := true }
  else if label = "PIN" then Except.ok { r with pin := true }
  else if label = "POR" then Except.ok { r with power_on := true }
  else if label = "SFT" then Except.ok { r with software := true }
  else if label = "WDG" then Except.ok { r with watchdog := true }
  else if label = "WWD" then Except.ok { r with window_watchdog := true }
  else if label = "LPW" then Except.ok { r with low_power := true }
  else if label = "HRDFLT" then Except.ok { r with hard_fault := true }
  else Except.error ("Unrecognized reset flag label " ++ label)

/-- `FromStr for ResetFlags`: the mutating `for` loop over `s.split(',')`
is a monadic fold over the labels, starting from `Self::default()`. -/
def ResetFlags.fromStr (s : String) : Except String ResetFlags :=
  (splitCommas s).foldlM ResetFlags.applyLabel {}

/-- `reader::RawHubStatus`. -/
structure RawHubStatus where
  serial_number : String
  firmware_revision : String
  uptime : ℤ
  rssi : ℝ
  timestamp : ℤ
  reset_flags : String
  seq : ℤ
  radio_stats : Fin 5 → ℤ

/-- `decoder::HubStatus`. -/
structure HubStatus where
  serial_number : String
  firmware_revision : String
  uptime : Duration
  rssi : ℝ
  timestamp : DateTime
  reset_flags : ResetFlags
  seq : ℤ

/-- `TryFrom<reader::RawHubStatus> for HubStatus`. Note the decoded
`timestamp` is built from `raw.uptime` in the source. -/
def HubStatus.tryFromRaw (raw : RawHubStatus) :
    Except (RawHubStatus × String) HubStatus :=
  match ResetFlags.fromStr raw.reset_flags with
  | Except.error e => Except.error (raw, e)
  | Except.ok reset_flags =>
    Except.ok
      { serial_number := raw.serial_number,
        firmware_revision := raw.firmware_revision,
        uptime := Duration.seconds raw.uptime,
        rssi := raw.rssi,
        timestamp := DateTime.fromUnix raw.uptime,
        reset_flags := reset_flags,
        seq := raw.seq }

/-- `perishable::Perishable<T>`: the payload plus the expiry instant held in
the `AtomicCell`. `Instant` is an integer clock value. -/
structure Perishable (T : Type) where
  value : T
  expiry : ℤ

/-- `Perishable::new`: the `Instant::now()` call becomes the explicit
argument `now`, the construction instant. -/
def Perishable.new {T : Type} (t : T) (now : ℤ) : Perishable T :=
  { value := t, expiry := now }

/-- `Perishable::freshen`: stores `now + valid_duration` as the new expiry
and hands back the wrapped value. -/
def Perishable.freshen {T : Type} (p : Perishable T) (valid_duration : ℤ)
    (now : ℤ) : Perishable T × T :=
  ({ value := p.value, expiry := now + valid_duration }, p.value)

/-- `Perishable::fresh`: `if self.1.load() >= Instant::now() { Some } else
{ None }`. -/
def Perishable.fresh {T : Type} (p : Perishable T) (now : ℤ) : Option T :=
  if p.expiry ≥ now then Option.some p.value else Option.none

/-- `Perishable::map`. -/
def Perishable.map {T U : Type} (p : Perishable T) (f : T → U) (now : ℤ) :
    Option U :=
  (p.fresh now).map f

/-! ## Claims about `Perishable` -/

/-- C3 (amended): `fresh` returns `some` of the wrapped value exactly when
`now ≤ expiry` (the comparison in the source is `expiry >= now`, so the
value is still returned at the expiry instant itself), and `none` exactly
when `expiry < now`. -/
theorem perishable_fresh_some_iff {T : Type} (p : Perishable T) (now : ℤ) :
    (p.fresh now = Option.some p.value ↔ now ≤ p.expiry) ∧
    (p.fresh now = Option.none ↔ p.expiry < now) := by
  unfold Perishable.fresh
  constructor <;> split <;> simp_all

/-- C3 counterexample: with the expiry instant equal to the current instant
(both 5), `fresh` still returns the value although `now < expiry` fails, so
"`some` iff `now` is strictly before the expiry" is false. -/
theorem perishable_fresh_at_expiry_cex :
    Perishable.fresh { value := (0 : ℤ), expiry := 5 } 5 = Option.some 0 ∧
    ¬ ((5 : ℤ) < 5) := by
  exact ⟨rfl, by decide⟩

/-- C8 (amended): `new` records the construction instant itself as the
expiry (not an instant strictly in the past), so `fresh` at any instant
strictly after construction and before the first `freshen` returns
`none`. -/
theorem perishable_new_stale_after {T : Type} (v : T) (t now : ℤ)
    (h : t < now) :
    (Perishable.new v t).expiry = t ∧
    (Perishable.new v t).fresh now = Option.none := by
  refine ⟨rfl, ?_⟩
  unfold Perishable.new Perishable.fresh
  simp only [ge_iff_le]
  rw [if_neg (by omega)]

/-- Witness for C8's theorem at `v = 0`, constructed at instant 0 and read
at instant 1. -/
theorem perishable_new_stale_after_witness :
    (0 : ℤ) < 1 ∧
    ((Perishable.new (0 : ℤ) 0).expiry = 0 ∧
      (Perishable.new (0 : ℤ) 0).fresh 1 = Option.none) :=
  ⟨by decide, perishable_new_stale_after 0 0 1 (by decide)⟩

/-- C8 counterexample: constructed at instant 7, the expiry is 7 itself,
which is not strictly in the past of the construction instant. -/
theorem perishable_new_expiry_cex :
    (Perishable.new (0 : ℤ) 7).expiry = 7 ∧
    ¬ ((Perishable.new (0 : ℤ) 7).expiry < 7) := by
  exact ⟨rfl, by decide⟩

/-! ## Claims about `ResetFlags` / `HubStatus` -/

/-- C10: splitting the empty string on `,` yields one empty token, which
matches no reset-flag label, so `from_str("")` is an unrecognized-label
error and a hub status whose reset-flags field is empty fails to decode
as a whole (the error carrying the raw record). -/
theorem reset_flags_empty_fails (raw : RawHubStatus)
    (h : raw.reset_flags = "") :
    splitCommas "" = [""] ∧
    ResetFlags.fromStr "" = Except.error "Unrecognized reset flag label " ∧
    HubStatus.tryFromRaw raw =
      Except.error (raw, "Unrecognized reset flag label ") := by
  refine ⟨rfl, rfl, ?_⟩
  unfold HubStatus.tryFromRaw
  rw [h, show ResetFlags.fromStr "" =
    Except.error "Unrecognized reset flag label " from rfl]

/-- Witness for C10's theorem on a concrete raw hub status record whose
reset-flags field is the empty string. -/
theorem reset_flags_empty_fails_witness :
    (RawHubStatus.reset_flags
      { serial_number := "HB-1", firmware_revision := "171",
        uptime := 100, rssi := -62, timestamp := 1700000000,
        reset_flags := "", seq := 3, radio_stats := fun _ => 0 } = "") ∧
    (splitCommas "" = [""] ∧
      ResetFlags.fromStr "" =
        Except.error "Unrecognized reset flag label " ∧
      HubStatus.tryFromRaw
        { serial_number := "HB-1", firmware_revision := "171",
          uptime := 100, rssi := -62, timestamp := 1700000000,
          reset_flags := "", seq := 3, radio_stats := fun _ => 0 } =
        Except.error
          ({ serial_number := "HB-1", firmware_revision := "171",
             uptime := 100, rssi := -62, timestamp := 1700000000,
             reset_flags := "", seq := 3, radio_stats := fun _ => 0 },
           "Unrecognized reset flag label ")) :=
  ⟨rfl, reset_flags_empty_fails _ rfl⟩

/-- C9: when the reset-flags string parses, a raw hub status decodes
successfully, its timestamp is the raw `uptime` field read as a Unix second
count, and the raw record's own `timestamp` field has no effect on the
decoded result. -/
theorem hub_status_timestamp_from_uptime (raw : RawHubStatus)
    (f : ResetFlags) (h : ResetFlags.fromStr raw.reset_flags = Except.ok f) :
    (∀ t : ℤ, HubStatus.tryFromRaw { raw with timestamp := t } =
      HubStatus.tryFromRaw raw) ∧
    ∃ hs : HubStatus, HubStatus.tryFromRaw raw = Except.ok hs ∧
      hs.timestamp = DateTime.fromUnix raw.uptime := by
  refine ⟨fun t => ?_, ?_⟩
  · unfold HubStatus.tryFromRaw
    rw [show ({ raw with timestamp := t } : RawHubStatus).reset_flags =
      raw.reset_flags from rfl, h]
  · unfold HubStatus.tryFromRaw
    rw [h]
    exact ⟨_, rfl, rfl⟩

/-- A concrete raw hub status record: reset flags `"BOR"`, uptime 500,
and an unrelated raw `timestamp` field 1700000000. -/
noncomputable def hubRawSample : RawHubStatus :=
  { serial_number := "HB-2", firmware_revision := "171",
    uptime := 500, rssi := -55, timestamp := 1700000000,
    reset_flags := "BOR", seq := 9, radio_stats := fun _ => 0 }

/-- Witness for C9's theorem on `hubRawSample`: its reset flags parse, and
the decoded timestamp is its uptime, 500. -/
theorem hub_status_timestamp_from_uptime_witness :
    ResetFlags.fromStr hubRawSample.reset_flags =
      Except.ok { brownout := true } ∧
    ((∀ t : ℤ, HubStatus.tryFromRaw { hubRawSample with timestamp := t } =
        HubStatus.tryFromRaw hubRawSample) ∧
      ∃ hs : HubStatus, HubStatus.tryFromRaw hubRawSample = Except.ok hs ∧
        hs.timestamp = DateTime.fromUnix hubRawSample.uptime) :=
  ⟨rfl, hub_status_timestamp_from_uptime hubRawSample { brownout := true } rfl⟩

/-! ## Claims about the derived-physics accessors -/

/-- C5: each derived-physics accessor returns a value exactly when all of
its required inputs are present: barometric pressure needs air temperature
and station pressure; saturated vapor pressure needs air temperature;
actual vapor pressure, dew point and wet-bulb temperature need air
temperature and relative humidity; apparent temperature needs air
temperature, relative humidity, the wind group and the solar group. No
accessor errors or invents a default. -/
theorem accessors_available_iff (o : Observation) (elev : ℝ) :
    ((o.barometric_pressure elev).isSome = true ↔
      (o.air_temperature.isSome = true ∧ o.station_pressure.isSome = true)) ∧
    (o.vapor_pressure_saturated.isSome = true ↔
      o.air_temperature.isSome = true) ∧
    (o.vapor_pressure_actual.isSome = true ↔
      (o.air_temperature.isSome = true ∧
        o.relative_humidity.isSome = true)) ∧
    (o.dew_point.isSome = true ↔
      (o.air_temperature.isSome = true ∧
        o.relative_humidity.isSome = true)) ∧
    (o.wet_bulb_temperature.isSome = true ↔
      (o.air_temperature.isSome = true ∧
        o.relative_humidity.isSome = true)) ∧
    (o.apparent_temperature.isSome = true ↔
      (o.air_temperature.isSome = true ∧ o.relative_humidity.isSome = true ∧
        o.wind.isSome = true ∧ o.solar.isSome = true)) := by
  obtain ⟨ts, wind, sp, ta, rh, sol, pr, li, bv, ri⟩ := o
  cases ta <;> cases sp <;> cases rh <;> cases wind <;> cases sol <;>
    simp [Observation.barometric_pressure,
      Observation.vapor_pressure_saturated,
      Observation.vapor_pressure_actual, Observation.dew_point,
      Observation.wet_bulb_temperature, Observation.apparent_temperature]

/-- C7: at station elevation 0 the hypsometric ratio is exactly 1, so
`barometric_pressure(0)` returns exactly the station pressure. -/
theorem barometric_pressure_at_zero_elevation (o : Observation) (t p : ℝ)
    (hat : o.air_temperature = Option.some t)
    (hsp : o.station_pressure = Option.some p) :
    o.barometric_pressure 0 = Option.some p := by
  simp [Observation.barometric_pressure, hat, hsp]

/-- A sample observation: air temperature 20 °C, relative humidity 100 %,
station pressure 1013 hPa, all optional groups absent. -/
noncomputable def sampleObs : Observation :=
  { timestamp := 0, wind := Option.none,
    station_pressure := Option.some 1013,
    air_temperature := Option.some 20,
    relative_humidity := Option.some 100,
    solar := Option.none, precip := Option.none, lightning := Option.none,
    battery_volts := 2.6, report_interval := 1 }

/-- Witness for C7's theorem on `sampleObs`: at elevation 0 the result is
exactly the stored station pressure 1013. -/
theorem barometric_pressure_at_zero_elevation_witness :
    sampleObs.air_temperature = Option.some 20 ∧
    sampleObs.station_pressure = Option.some 1013 ∧
    sampleObs.barometric_pressure 0 = Option.some 1013 :=
  ⟨rfl, rfl, barometric_pressure_at_zero_elevation sampleObs 20 1013 rfl rfl⟩

/-- C1's formula as the claim states it: the ratio's exponent is written
`-g / (R_d * λ)` (numeric literals taken from the claim). The source
instead computes `.powf(-G_OVER_RD_LAMBDA)` with
`G_OVER_RD_LAMBDA = -G / (R_SUB_D * LAMBDA)`, i.e. exponent
`g / (R_d * λ)`. -/
noncomputable def barometric_pressure_claimed (o : Observation)
    (station_elevation : ℝ) : Option ℝ := do
  let t ← o.air_temperature
  let t_kelvin := t + 273.15
  let ratio := (1 + (-0.0065 * station_elevation) /
      (t_kelvin - -0.0065 * station_elevation)) ^
      ((-9.80665 / (287.0 * -0.0065) : ℝ))
  let p ← o.station_pressure
  pure (p * ratio)

/-- C1 (amended): with air temperature and station pressure present, the
code returns `station_pressure * (1 + λ·h / (T_K − λ·h)) ^ (g / (R_d·λ))`:
the exponent is `g / (R_d·λ)` (a negative number), not `−g / (R_d·λ)` as
claimed. -/
theorem barometric_pressure_formula (o : Observation) (elev t p : ℝ)
    (hat : o.air_temperature = Option.some t)
    (hsp : o.station_pressure = Option.some p) :
    o.barometric_pressure elev = Option.some (p *
      (1 + (-0.0065 * elev) / ((t + 273.15) - -0.0065 * elev)) ^
        ((9.80665 / (287.0 * -0.0065) : ℝ))) := by
  have hexp : -G_OVER_RD_LAMBDA = (9.80665 / (287.0 * -0.0065) : ℝ) := by
    unfold G_OVER_RD_LAMBDA G R_SUB_D LAMBDA
    ring
  have hl : LAMBDA = (-0.0065 : ℝ) := rfl
  have hz : ZERO_C_KELVIN = (273.15 : ℝ) := rfl
  simp [Observation.barometric_pressure, hat, hsp, hexp, hl, hz]

/-- Witness for C1's amended theorem on `sampleObs` at elevation 1000 m. -/
theorem barometric_pressure_formula_witness :
    sampleObs.air_temperature = Option.some 20 ∧
    sampleObs.station_pressure = Option.some 1013 ∧
    sampleObs.barometric_pressure 1000 = Option.some (1013 *
      (1 + (-0.0065 * 1000) / ((20 + 273.15) - -0.0065 * 1000)) ^
        ((9.80665 / (287.0 * -0.0065) : ℝ))) :=
  ⟨rfl, rfl, barometric_pressure_formula sampleObs 1000 20 1013 rfl rfl⟩

/-- Helper: the code's value of barometric pressure on `sampleObs` at
elevation 1000 m, with the exponent written out as a literal. -/
theorem barometric_sample_code_eval :
    sampleObs.barometric_pressure 1000 = Option.some (1013 *
      (1 + (-0.0065 * 1000) / ((20 + 273.15) - -0.0065 * 1000)) ^
        ((9.80665 / (287.0 * -0.0065) : ℝ))) := by
  have hexp : -G_OVER_RD_LAMBDA = (9.80665 / (287.0 * -0.0065) : ℝ) := by
    unfold G_OVER_RD_LAMBDA G R_SUB_D LAMBDA
    ring
  have hl : LAMBDA = (-0.0065 : ℝ) := rfl
  have hz : ZERO_C_KELVIN = (273.15 : ℝ) := rfl
  simp [Observation.barometric_pressure, sampleObs, hexp, hl, hz]

/-- Helper: the claimed formula's value on the same input. -/
theorem barometric_sample_claimed_eval :
    barometric_pressure_claimed sampleObs 1000 = Option.some (1013 *
      (1 + (-0.0065 * 1000) / ((20 + 273.15) - -0.0065 * 1000)) ^
        ((-9.80665 / (287.0 * -0.0065) : ℝ))) := by
  simp [barometric_pressure_claimed, sampleObs]

/-- C1 counterexample: on `sampleObs` (20 °C, 1013 hPa) at elevation
1000 m the code's result differs from the claim's formula — the two
exponents have opposite signs and the base of the power is strictly
between 0 and 1, so the two powers differ. -/
theorem barometric_pressure_exponent_cex :
    sampleObs.barometric_pressure 1000 ≠
      barometric_pressure_claimed sampleObs 1000 := by
  have hb0 : (0 : ℝ) <
      1 + (-0.0065 * 1000) / ((20 + 273.15) - -0.0065 * 1000) := by
    norm_num
  have hb1 : (1 + (-0.0065 * 1000) / ((20 + 273.15) - -0.0065 * 1000) : ℝ)
      < 1 := by
    norm_num
  have hexp : (9.80665 / (287.0 * -0.0065) : ℝ) <
      -9.80665 / (287.0 * -0.0065) := by
    norm_num
  have hlt :=
    (Real.rpow_lt_rpow_left_iff_of_base_lt_one hb0 hb1).mpr hexp
  intro hEq
  rw [barometric_sample_code_eval, barometric_sample_claimed_eval] at hEq
  have h2 := Option.some.inj hEq
  have h3 := mul_left_cancel₀ (by norm_num : (1013 : ℝ) ≠ 0) h2
  exact absurd h3 (ne_of_gt hlt)

/-- C6 (amended): at 100 % relative humidity the actual vapor pressure
equals the saturated one, and the dew point is the Magnus-form inversion
`C·L/(B−L)` of the Arden-Buck exponent `L = (B − T/D)·(T/(C+T))`. This
approximates the air temperature but is not within `1e-9` of it in general
(the forward formula carries the Buck enhancement term `−T/D`, which the
inversion does not undo). -/
theorem dew_point_at_full_humidity (o : Observation) (t : ℝ)
    (hat : o.air_temperature = Option.some t)
    (hrh : o.relative_humidity = Option.some 100) :
    o.dew_point = Option.some (ARDEN_BUCK_C *
      ((ARDEN_BUCK_B - t / ARDEN_BUCK_D) * (t / (ARDEN_BUCK_C + t))) /
      (ARDEN_BUCK_B -
        (ARDEN_BUCK_B - t / ARDEN_BUCK_D) * (t / (ARDEN_BUCK_C + t)))) := by
  have hA : (ARDEN_BUCK_A : ℝ) ≠ 0 := by
    unfold ARDEN_BUCK_A
    norm_num
  have h100 : ((100 : ℝ) / 100) = 1 := by norm_num
  simp [Observation.dew_point, Observation.vapor_pressure_actual,
    Observation.vapor_pressure_saturated, hat, hrh, h100, mul_div_assoc,
    Real.log_exp, mul_div_cancel_left₀, hA]

/-- Witness for C6's amended theorem on `sampleObs` (20 °C, 100 %). -/
theorem dew_point_at_full_humidity_witness :
    sampleObs.air_temperature = Option.some 20 ∧
    sampleObs.relative_humidity = Option.some 100 ∧
    sampleObs.dew_point = Option.some (ARDEN_BUCK_C *
      ((ARDEN_BUCK_B - 20 / ARDEN_BUCK_D) * (20 / (ARDEN_BUCK_C + 20))) /
      (ARDEN_BUCK_B -
        (ARDEN_BUCK_B - 20 / ARDEN_BUCK_D) * (20 / (ARDEN_BUCK_C + 20)))) :=
  ⟨rfl, rfl, dew_point_at_full_humidity sampleObs 20 rfl rfl⟩

/-- C6 counterexample: on `sampleObs` (air temperature 20 °C, relative
humidity 100 %) the dew point differs from the air temperature by about
0.098 °C — far more than the claimed `1e-9` tolerance. -/
theorem dew_point_roundtrip_cex :
    ∃ d : ℝ, sampleObs.dew_point = Option.some d ∧ 1e-9 < |d - 20| := by
  refine ⟨ARDEN_BUCK_C *
      ((ARDEN_BUCK_B - 20 / ARDEN_BUCK_D) * (20 / (ARDEN_BUCK_C + 20))) /
      (ARDEN_BUCK_B -
        (ARDEN_BUCK_B - 20 / ARDEN_BUCK_D) * (20 / (ARDEN_BUCK_C + 20))),
    ?_, ?_⟩
  · have hA : (ARDEN_BUCK_A : ℝ) ≠ 0 := by
      unfold ARDEN_BUCK_A
      norm_num
    have h100 : ((100 : ℝ) / 100) = 1 := by norm_num
    simp [Observation.dew_point, Observation.vapor_pressure_actual,
      Observation.vapor_pressure_saturated, sampleObs, h100, mul_div_assoc,
      Real.log_exp, mul_div_cancel_left₀, hA]
  · unfold ARDEN_BUCK_B ARDEN_BUCK_C ARDEN_BUCK_D
    rw [lt_abs]
    right
    norm_num

/-! ## Claims about decoding raw observations -/

/-- The failure condition C2 states for decoding a raw observation:
timestamp slot (0), battery-volts slot (16) or report-interval slot (17)
absent, or both precipitation slots (12, 13) present with a code (slot 13
after the `as i64` cast) outside `{0, 1, 2, 3}`. -/
def RawObservation.decodeFails (raw : RawObservation) : Prop :=
  raw.obs 0 = Option.none ∨ raw.obs 16 = Option.none ∨
  raw.obs 17 = Option.none ∨
  (∃ q k, raw.obs 12 = Option.some q ∧ raw.obs 13 = Option.some k ∧
    f64toI64 k ≠ 0 ∧ f64toI64 k ≠ 1 ∧ f64toI64 k ≠ 2 ∧ f64toI64 k ≠ 3)

/-- C2: decoding a raw observation succeeds exactly when none of the
claimed failure conditions holds, and on every failure the error is
returned together with the original raw record unchanged. -/
theorem observation_decode_error_iff (raw : RawObservation) :
    ((∃ o, Observation.tryFromRaw raw = Except.ok o) ↔
      ¬ raw.decodeFails) ∧
    (raw.decodeFails →
      ∃ msg, Observation.tryFromRaw raw = Except.error (raw, msg)) := by
  unfold Observation.tryFromRaw RawObservation.decodeFails
  rcases h0 : raw.obs 0 with _ | u <;>
    rcases h16 : raw.obs 16 with _ | bv <;>
      rcases h17 : raw.obs 17 with _ | ri <;>
        rcases h12 : raw.obs 12 with _ | q <;>
          rcases h13 : raw.obs 13 with _ | k <;>
            simp [h0, h16, h17, h12, h13, precipObsFromSlots] <;>
            split_ifs <;>
            simp_all

/-- Helper: any successfully decoded observation carries exactly the wind
group computed by the all-or-nothing `wind` closure. -/
theorem decoded_wind_eq (raw : RawObservation) (o : Observation)
    (h : Observation.tryFromRaw raw = Except.ok o) :
    o.wind = windFromSlots raw.obs := by
  unfold Observation.tryFromRaw at h
  rcases h0 : raw.obs 0 with _ | u <;>
    rcases h16 : raw.obs 16 with _ | bv <;>
      rcases h17 : raw.obs 17 with _ | ri <;>
        rcases hpre : precipObsFromSlots raw.obs with _ | ⟨q, k⟩ <;>
          simp [h0, h16, h17, hpre] at h <;>
          (try split_ifs at h) <;>
          (try simp_all) <;>
          (subst h; rfl)

/-- C4: in every successfully decoded observation the wind group is
present exactly when slots 1 (lull), 2 (avg), 3 (gust), 4 (direction) and
5 (interval) are all present; with slot 4 absent the group is entirely
absent, never partially populated. -/
theorem wind_group_all_or_nothing (raw : RawObservation) (o : Observation)
    (h : Observation.tryFromRaw raw = Except.ok o) :
    (o.wind.isSome = true ↔
      ((raw.obs 1).isSome = true ∧ (raw.obs 2).isSome = true ∧
        (raw.obs 3).isSome = true ∧ (raw.obs 4).isSome = true ∧
        (raw.obs 5).isSome = true)) ∧
    (raw.obs 4 = Option.none → o.wind = Option.none) := by
  have hw : o.wind = windFromSlots raw.obs := decoded_wind_eq raw o h
  rw [hw]
  constructor
  · unfold windFromSlots
    rcases h1 : raw.obs 1 with _ | a <;>
      rcases h2 : raw.obs 2 with _ | b <;>
        rcases h3 : raw.obs 3 with _ | c <;>
          rcases h4 : raw.obs 4 with _ | d <;>
            rcases h5 : raw.obs 5 with _ | e <;>
              simp [h1, h2, h3, h4, h5]
  · intro h4
    unfold windFromSlots
    simp [h4]

/-- A concrete raw observation with wind lull/avg/gust present (slots
1–3), wind direction (slot 4) absent, and the required slots 0, 16 and 17
present. -/
noncomputable def rawSansWindDir : RawObservation :=
  { serial_number := "ST-1", hub_sn := "HB-1",
    obs := fun i =>
      if i = 0 then Option.some 1700000000
      else if i = 1 then Option.some 1.5
      else if i = 2 then Option.some 2.5
      else if i = 3 then Option.some 3.5
      else if i = 16 then Option.some 2.6
      else if i = 17 then Option.some 1
      else Option.none,
    firmware_revision := 176 }

/-- The observation `rawSansWindDir` decodes to: wind group entirely
absent, required fields populated. -/
noncomputable def obsSansWindDir : Observation :=
  { timestamp := 1700000000, wind := Option.none,
    station_pressure := Option.none, air_temperature := Option.none,
    relative_humidity := Option.none, solar := Option.none,
    precip := Option.none, lightning := Option.none,
    battery_volts := 2.6, report_interval := 60 }

/-- Helper: `rawSansWindDir` decodes successfully to `obsSansWindDir`. -/
theorem rawSansWindDir_decodes :
    Observation.tryFromRaw rawSansWindDir = Except.ok obsSansWindDir := by
  unfold Observation.tryFromRaw rawSansWindDir obsSansWindDir
  simp +decide [windFromSlots, solarFromSlots, precipObsFromSlots,
    lightningFromSlots, f64toI64, DateTime.fromUnix, Duration.minutes,
    Duration.seconds]

/-- Witness for C4's theorem on `rawSansWindDir`: it decodes successfully
and its wind group is entirely absent. -/
theorem wind_group_all_or_nothing_witness :
    Observation.tryFromRaw rawSansWindDir = Except.ok obsSansWindDir ∧
    ((obsSansWindDir.wind.isSome = true ↔
      ((rawSansWindDir.obs 1).isSome = true ∧
        (rawSansWindDir.obs 2).isSome = true ∧
        (rawSansWindDir.obs 3).isSome = true ∧
        (rawSansWindDir.obs 4).isSome = true ∧
        (rawSansWindDir.obs 5).isSome = true)) ∧
      (rawSansWindDir.obs 4 = Option.none →
        obsSansWindDir.wind = Option.none)) :=
  ⟨rawSansWindDir_decodes,
    wind_group_all_or_nothing rawSansWindDir obsSansWindDir
      rawSansWindDir_decodes⟩

end Tempest
